import Mathlib

/-!
Verification of the LGO Deterministic Predictor (src/lgojumpfinal.cpp).

Shallow embedding conventions:
* A decimal digit string is modelled as a `List ℕ` of digit values,
  most-significant digit first (the C++ code reads `c - '0'` for each
  character, so a digit-character string corresponds exactly to such a list).
* C++ `long long` values are modelled as `ℤ` (overflow does not occur on the
  values the claims quantify over and is not modelled).
* `double` / `long double` values are modelled as `ℝ`; `std::log` is
  `Real.log`, `std::round` is Mathlib's `round` (they agree except at
  negative half-integers, which do not arise for the rounded quantities
  here).  `std::stold` on a digit string is modelled as the exact value of
  the string, with `std::out_of_range` raised when the value exceeds the
  `long double` range (`LDBL_MAX` for the 80-bit extended type,
  `2 ^ 16384 - 2 ^ 16320`) and `std::invalid_argument` on an empty string.
* The mutable global variables written by the predictor are passed as an
  explicit `Globals` record; the by-reference `PredictionMetrics` parameter
  is passed in and the fully-overwritten record is returned.
-/

namespace LGO

/-! ### Constants (lgojumpfinal.cpp lines 32-56) -/

/-- Line 32: `MUON_MASS_LD = 1.8835316L * 1e-28L`. -/
noncomputable def MUON_MASS_LD : ℝ := 1.8835316 / 10 ^ (28 : ℕ)

/-- Line 33: `ELECTRON_MASS_LD = 9.1093837L * 1e-31L`. -/
noncomputable def ELECTRON_MASS_LD : ℝ := 9.1093837 / 10 ^ (31 : ℕ)

/-- Line 35: the mass ratio `C_LGO_STATIC`. -/
noncomputable def C_LGO_STATIC : ℝ := MUON_MASS_LD / ELECTRON_MASS_LD

/-- Line 36: the literal double constant `MATH_E` (not the real number `e`). -/
noncomputable def MATH_E : ℝ := 2.718281828459045

/-- Line 37: the literal double constant `MATH_PI` (not the real number `π`). -/
noncomputable def MATH_PI : ℝ := 3.141592653589793

/-- Line 38: `PHI_DAMPENER = 1.6180339887 / 2.0`. -/
noncomputable def PHI_DAMPENER : ℝ := 1.6180339887 / 2

/-- Line 42: the zeta-stabilized LGO constant `C_LGO*`. -/
noncomputable def C_LGO_STAR : ℝ :=
  C_LGO_STATIC * PHI_DAMPENER * (Real.log C_LGO_STATIC / Real.log (MATH_E * MATH_PI))

/-- Line 45: `ZETA_CRITICAL_LINE_CONSTANT = C_LGO_STAR / (2 * pi^4)`. -/
noncomputable def ZETA_CRITICAL_LINE_CONSTANT : ℝ := C_LGO_STAR / (2 * MATH_PI ^ (4 : ℕ))

/-- Line 47. -/
def ULAM_CORRECTION_SIZE : ℕ := 5

/-- Line 48. -/
def MOD_7_CORRECTION_SIZE : ℕ := 7

/-- Line 54: the 5-entry Ulam correction table, indexed by the `PrimeSet` enum. -/
def ulam_delta_correction_12 : List ℤ := [0, -2, 2, -1, -6]

/-- Line 55: the 7-entry mod-7 correction table, indexed by `value mod 7`. -/
def ulam_delta_correction_7 : List ℤ := [0, 3, -1, 0, 1, -1, 0]

/-- Line 56: `enum PrimeSet { SET_NONE, SET_A, SET_B, SET_C, SET_D }`. -/
inductive PrimeSet where
  | SET_NONE
  | SET_A
  | SET_B
  | SET_C
  | SET_D
deriving DecidableEq, Repr

/-- The numeric value of a `PrimeSet` enumerator (C++ enums number their
variants 0,1,2,3,4 in declaration order); this is the value used to index
`ulam_delta_correction_12` at line 251. -/
def primeSetIdx : PrimeSet → ℕ
  | .SET_NONE => 0
  | .SET_A => 1
  | .SET_B => 2
  | .SET_C => 3
  | .SET_D => 4

/-- Line 244-248: the label written into the metrics record for each enum value. -/
def primeSetLabel : PrimeSet → String
  | .SET_A => "SET_A"
  | .SET_B => "SET_B"
  | .SET_C => "SET_C"
  | .SET_D => "SET_D"
  | .SET_NONE => "SET_UNKNOWN"

/-! ### Data model -/

/-- Lines 78-91: the metrics structure populated by each prediction call. -/
structure PredictionMetrics where
  g_gravitational : ℝ
  current_prime_digits : ℤ
  base_gap_out : ℤ
  density_correction_G : ℤ
  delta_out : ℤ
  fluctuation_delta : ℤ
  final_gap : ℤ
  correlative_adjustment : ℝ
  current_prime_set : String
  zeta_correlation_Z : ℤ
  rh_condition_status : String
  pnt_ratio : ℝ

/-- Lines 68-75: the global variables written by `LGO_Predict_Deterministic`
(`current_phi`, `pnt_gap_ratio`, `current_prime_set_enum`).  They are passed
and returned explicitly to model the C++ mutable globals. -/
structure Globals where
  current_phi : ℝ
  pnt_gap_ratio : ℝ
  current_prime_set_enum : PrimeSet

/-- The initial values of the metrics fields (the member initializers at
lines 79-90), used by the driver loop when it declares a fresh
`PredictionMetrics` per iteration (line 531). -/
noncomputable def initMetrics : PredictionMetrics where
  g_gravitational := C_LGO_STAR
  current_prime_digits := 0
  base_gap_out := 0
  density_correction_G := 0
  delta_out := 0
  fluctuation_delta := 0
  final_gap := 0
  correlative_adjustment := 0
  current_prime_set := "SET_D"
  zeta_correlation_Z := 0
  rh_condition_status := "STABLE (C_LGO*)"
  pnt_ratio := 0

/-- The startup values of the global variables (lines 71-75). -/
noncomputable def initGlobals : Globals where
  current_phi := 0
  pnt_gap_ratio := 0
  current_prime_set_enum := .SET_D

/-- The C++ exceptions that can escape the modelled standard-library calls. -/
inductive StdExc where
  | invalid_argument
  | out_of_range
deriving DecidableEq, Repr

/-- The mathematical value of a digit string (most-significant digit first):
the standard positional reading `value = fold (acc * 10 + digit)`. -/
def strVal (s : List ℕ) : ℕ := s.foldl (fun acc c => acc * 10 + c) 0

/-! ### BigInt arithmetic (lines 135-199) -/

/-- The decimal digit string produced by `std::to_string` on a non-negative
`long long` (most-significant digit first; `to_string 0 = "0"`). -/
def natDigits (n : ℕ) : List ℕ := if n = 0 then [0] else (Nat.digits 10 n).reverse

/-- The digit-by-digit addition loop of `add_strings` (lines 143-160),
operating on least-significant-first digit lists with a carry.  When both
inputs are exhausted the loop keeps emitting `carry % 10` while dividing the
carry by 10, which is exactly `Nat.digits 10 carry`. -/
def addAux : List ℕ → List ℕ → ℕ → List ℕ
  | [], [], carry => Nat.digits 10 carry
  | i :: is, [], carry => ((i + carry) % 10) :: addAux is [] ((i + carry) / 10)
  | [], j :: js, carry => ((j + carry) % 10) :: addAux [] js ((j + carry) / 10)
  | i :: is, j :: js, carry => ((i + j + carry) % 10) :: addAux is js ((i + j + carry) / 10)

/-- Lines 135-163: `add_strings(large_num_str, small_num_ll)` for a
non-negative `small_num_ll` (the only case exercised: the gap is clamped
to at least 2 before the call).  The C++ loop walks both strings from the
least-significant end and prepends each digit of the sum; this equals
reversing both inputs, running the carry loop, and reversing the result. -/
def add_strings (large_num_str : List ℕ) (small_num : ℕ) : List ℕ :=
  (addAux large_num_str.reverse (natDigits small_num).reverse 0).reverse

/-- Lines 165-171: Horner-style remainder mod 12 over the digit sequence. -/
def calculate_mod_12 (pn_str : List ℕ) : ℕ :=
  pn_str.foldl (fun remainder c => (remainder * 10 + c) % 12) 0

/-- Lines 173-179: Horner-style remainder mod 7 over the digit sequence. -/
def calculate_mod_7 (pn_str : List ℕ) : ℕ :=
  pn_str.foldl (fun remainder c => (remainder * 10 + c) % 7) 0

/-- Lines 181-199: classification of a digit string into a `PrimeSet`.
The mod-12 cascade is tried first; the literal overrides for the strings
"2" and "3" live in the final else-branch. -/
def determine_prime_set (pn_str : List ℕ) : PrimeSet :=
  if pn_str = [] then .SET_NONE
  else
    let p_mod_12 := calculate_mod_12 pn_str
    if p_mod_12 = 1 then .SET_A
    else if p_mod_12 = 5 then .SET_B
    else if p_mod_12 = 7 then .SET_C
    else if p_mod_12 = 11 then .SET_D
    else if pn_str = [2] then .SET_A
    else if pn_str = [3] then .SET_B
    else .SET_NONE

/-! ### Base gap heuristic (lines 205-216) -/

/-- Lines 205-216: `LGO_CalculateNextPrime_BaseGap_Detailed`.  Returns the
C++ tuple `(predicted_gap, p_n_plus_1, digits)` together with the value
stored into the by-reference `success_flag` (always `true`).  The floating
point expression `round(((long double)digits * digits) / 50.0L)` is modelled
by the exact rational rounding (exact for every realizable digit count). -/
def LGO_CalculateNextPrime_BaseGap_Detailed (pn_str : List ℕ) :
    (ℤ × List ℕ × ℤ) × Bool :=
  let digits : ℤ := pn_str.length
  let base_gap : ℤ := round (((digits : ℚ) * (digits : ℚ)) / 50) + 2
  let predicted_gap : ℤ := base_gap + (2 / 2)
  let predicted_gap : ℤ := if predicted_gap % 2 ≠ 0 then predicted_gap + 1 else predicted_gap
  let predicted_gap : ℤ := if predicted_gap < 2 then 2 else predicted_gap
  ((predicted_gap, [], digits), true)

/-! ### The modelled `std::stold` -/

/-- `LDBL_MAX` for the 80-bit extended `long double`:
`(2 - 2^-63) * 2^16383 = 2^16384 - 2^16320` (about `1.19 * 10^4932`).
(Toolchains where `long double` is the 64-bit `double` have the smaller
bound `2^1024 - 2^971`; every input used below exceeds both or neither.) -/
def LDBL_MAX_NAT : ℕ := 2 ^ 16384 - 2 ^ 16320

/-- Model of `std::stold` on a digit string: the exact value of the string,
raising `std::invalid_argument` on an empty string and `std::out_of_range`
when the value falls outside the `long double` range. -/
noncomputable def stold (s : List ℕ) : Except StdExc ℝ :=
  if s = [] then .error .invalid_argument
  else if strVal s ≤ LDBL_MAX_NAT then .ok ((strVal s : ℕ) : ℝ)
  else .error .out_of_range

/-! ### The core prediction function (lines 219-288) -/

/-- Lines 219-288: `LGO_Predict_Deterministic`, transcribed statement by
statement.  The by-reference `metrics` parameter and the global variables
are threaded explicitly; the two `std::stold` calls (line 233 on the leading
`min(10, length)` digits, line 273 on the whole string) are the only fallible
steps; when the one at line 273 throws, the partially updated by-reference
metrics record is not modelled, only the escaping exception. -/
noncomputable def LGO_Predict_Deterministic (pn_str : List ℕ)
    (metrics : PredictionMetrics) (glob : Globals) :
    Except StdExc ((ℤ × List ℕ) × PredictionMetrics × Globals) :=
  let digits : ℤ := pn_str.length
  let m1 := { metrics with current_prime_digits := digits }
  let detailed := LGO_CalculateNextPrime_BaseGap_Detailed pn_str
  let base_gap_heuristic : ℤ := detailed.1.1
  let m2 := { m1 with base_gap_out := base_gap_heuristic }
  -- 0. rigid constant setup (lines 229-230)
  let g_rigid_constant : ℝ := C_LGO_STAR
  let m3 := { m2 with g_gravitational := g_rigid_constant }
  -- 1. density correction G (lines 233-238)
  (stold (pn_str.take (min 10 pn_str.length))).bind fun lead_val =>
  let ln_pn : ℝ := Real.log 10 * ((digits : ℝ) - 1) + Real.log lead_val
  let phi_term : ℝ := ln_pn * Real.log g_rigid_constant / g_rigid_constant
  let glob1 := { glob with current_phi := phi_term }
  let G_density : ℤ := round glob1.current_phi
  let m4 := { m3 with density_correction_G := G_density }
  -- 2. Ulam / mod-7 delta (lines 241-257)
  let glob2 := { glob1 with current_prime_set_enum := determine_prime_set pn_str }
  let m5 := { m4 with current_prime_set := primeSetLabel glob2.current_prime_set_enum }
  let delta_12 : ℤ := ulam_delta_correction_12.getD (primeSetIdx glob2.current_prime_set_enum) 0
  let p_n_mod_7 : ℕ := calculate_mod_7 pn_str
  let delta_7 : ℤ := ulam_delta_correction_7.getD p_n_mod_7 0
  let delta_final : ℤ := delta_12 + round ((delta_7 : ℝ) * MATH_PI / 10)
  let m6 := { m5 with delta_out := delta_final }
  -- 3. fluctuation removed (lines 260-261)
  let m7 := { m6 with fluctuation_delta := 0 }
  -- 4. final gap calculation (lines 264-269)
  let final_gap0 : ℤ := base_gap_heuristic + delta_final + G_density
  let final_gap1 : ℤ := if final_gap0 % 2 ≠ 0 then final_gap0 + 1 else final_gap0
  let final_gap : ℤ := if final_gap1 < 2 then 2 else final_gap1
  let m8 := { m7 with final_gap := final_gap }
  let m9 := { m8 with correlative_adjustment := glob1.current_phi }
  -- 5. proof metrics: PNT ratio (lines 273-282)
  (stold pn_str).bind fun full_val =>
  let ln_pn_precise : ℝ := Real.log full_val
  let m10 := { m9 with
    pnt_ratio := if ln_pn_precise > 0 then (final_gap : ℝ) / ln_pn_precise else 0 }
  let glob3 :=
    if ln_pn_precise > 0 then { glob2 with pnt_gap_ratio := (final_gap : ℝ) / ln_pn_precise }
    else glob2
  let m11 := { m10 with zeta_correlation_Z := 0 }
  let m12 := { m11 with rh_condition_status := "STABLE (C_LGO*)" }
  -- 6. BigInt addition (line 285); the gap is an integer that the invariants
  -- below show to be at least 2, so passing it as a natural number matches
  -- the C++ `std::to_string` of the positive `long long`.
  let next_prime_result := add_strings pn_str final_gap.toNat
  .ok ((final_gap, next_prime_result), m12, glob3)

/-! ### Closed forms for the pipeline components.

Each of the following definitions is the closed form of one step of
`LGO_Predict_Deterministic`, written directly from the same source lines;
the lemma `LGO_Predict_Deterministic_ok` below proves that the transcribed
function produces exactly these values. -/

/-- Line 233: the leading-digits logarithm approximation
`ln(10) * (d - 1) + ln(value of the first min(10, d) digits)`. -/
noncomputable def ln_pn_of (s : List ℕ) : ℝ :=
  Real.log 10 * (((s.length : ℤ) : ℝ) - 1) +
    Real.log ((strVal (s.take (min 10 s.length)) : ℕ) : ℝ)

/-- Line 235: `phi = (ln_pn * ln(C_LGO_STAR)) / C_LGO_STAR`. -/
noncomputable def phi_term_of (s : List ℕ) : ℝ :=
  ln_pn_of s * Real.log C_LGO_STAR / C_LGO_STAR

/-- Line 237: the density correction `G = round(phi)`. -/
noncomputable def G_density_of (s : List ℕ) : ℤ := round (phi_term_of s)

/-- Lines 251-256: `delta_final = delta_12 + round(delta_7 * pi / 10)`. -/
noncomputable def delta_final_of (s : List ℕ) : ℤ :=
  ulam_delta_correction_12.getD (primeSetIdx (determine_prime_set s)) 0 +
    round (((ulam_delta_correction_7.getD (calculate_mod_7 s) 0 : ℤ) : ℝ) * MATH_PI / 10)

/-- Lines 264-267: the final gap: base + delta + G, then forced even, then
clamped to a minimum of 2. -/
noncomputable def final_gap_of (s : List ℕ) : ℤ :=
  let final_gap0 := (LGO_CalculateNextPrime_BaseGap_Detailed s).1.1 +
    delta_final_of s + G_density_of s
  let final_gap1 := if final_gap0 % 2 ≠ 0 then final_gap0 + 1 else final_gap0
  if final_gap1 < 2 then 2 else final_gap1

/-- The metrics record produced by a successful call of
`LGO_Predict_Deterministic` on `s`: every field is overwritten, so the
record depends only on the input string. -/
noncomputable def metricsOut (s : List ℕ) : PredictionMetrics where
  g_gravitational := C_LGO_STAR
  current_prime_digits := s.length
  base_gap_out := (LGO_CalculateNextPrime_BaseGap_Detailed s).1.1
  density_correction_G := G_density_of s
  delta_out := delta_final_of s
  fluctuation_delta := 0
  final_gap := final_gap_of s
  correlative_adjustment := phi_term_of s
  current_prime_set := primeSetLabel (determine_prime_set s)
  zeta_correlation_Z := 0
  rh_condition_status := "STABLE (C_LGO*)"
  pnt_ratio :=
    if Real.log ((strVal s : ℕ) : ℝ) > 0
    then (final_gap_of s : ℝ) / Real.log ((strVal s : ℕ) : ℝ) else 0

/-- The global-variable state after a successful call on `s`:
`current_phi` and `current_prime_set_enum` are always overwritten, while
`pnt_gap_ratio` is only overwritten when the precise logarithm is positive
(line 276 sits inside the `if`). -/
noncomputable def globalsOut (s : List ℕ) (glob : Globals) : Globals :=
  let base : Globals :=
    { current_phi := phi_term_of s
      pnt_gap_ratio := glob.pnt_gap_ratio
      current_prime_set_enum := determine_prime_set s }
  if Real.log ((strVal s : ℕ) : ℝ) > 0
  then { base with pnt_gap_ratio := (final_gap_of s : ℝ) / Real.log ((strVal s : ℕ) : ℝ) }
  else base

/-- The part of a prediction outcome that claim C4 quantifies over: the
returned (gap, next candidate) pair and the populated metrics record
(the global-variable component is dropped). -/
def predictObservable
    (e : Except StdExc ((ℤ × List ℕ) × PredictionMetrics × Globals)) :
    Except StdExc ((ℤ × List ℕ) × PredictionMetrics) :=
  e.map fun r => (r.1, r.2.1)

/-! ### Reference (specification-side) definitions.

These are written from the specification's wording, to be compared with the
transcribed code above. -/

/-- Specification wording for C7: round an integer up to the next even
integer (add 1 exactly when it is odd). -/
def evenCeil (n : ℤ) : ℤ := if n % 2 = 0 then n else n + 1

/-- Specification wording for C2: force even (add 1 if odd). -/
def forceEven (n : ℤ) : ℤ := if n % 2 ≠ 0 then n + 1 else n

/-- Specification wording for C2: clamp to a minimum of 2. -/
def clampMin2 (n : ℤ) : ℤ := if n < 2 then 2 else n

/-- Specification wording for C5: the classification purely by the mod-12
remainder: 1 ↦ A, 5 ↦ B, 7 ↦ C, 11 ↦ D, anything else ↦ None. -/
def primeSetOfRemSpec (r : ℕ) : PrimeSet :=
  if r = 1 then .SET_A
  else if r = 5 then .SET_B
  else if r = 7 then .SET_C
  else if r = 11 then .SET_D
  else .SET_NONE

/-- Specification wording for C8: the density correction as a function of
the digit count and the leading (at most 10) digits alone. -/
noncomputable def G_density_from (d : ℕ) (lead : List ℕ) : ℤ :=
  round ((Real.log 10 * ((d : ℝ) - 1) + Real.log ((strVal lead : ℕ) : ℝ)) *
    Real.log C_LGO_STAR / C_LGO_STAR)

/-- A 5000-digit input (value `10 ^ 4999`): far beyond the `long double`
range on every toolchain (both `1.19e4932` and `1.80e308`). -/
def overflowInput : List ℕ := 1 :: List.replicate 4999 0

/-! ### Arithmetic infrastructure lemmas -/

lemma strVal_nil : strVal [] = 0 := rfl

/-- Folding the positional-value step from an arbitrary accumulator. -/
lemma foldl_strVal_base (s : List ℕ) (a : ℕ) :
    s.foldl (fun acc c => acc * 10 + c) a = a * 10 ^ s.length + strVal s := by
  induction s generalizing a with
  | nil => simp [strVal]
  | cons d t ih =>
    have hd : strVal (d :: t) = d * 10 ^ t.length + strVal t := by
      show t.foldl (fun acc c => acc * 10 + c) (0 * 10 + d) = _
      rw [ih (0 * 10 + d)]; ring_nf
    calc (d :: t).foldl (fun acc c => acc * 10 + c) a
        = t.foldl (fun acc c => acc * 10 + c) (a * 10 + d) := rfl
      _ = (a * 10 + d) * 10 ^ t.length + strVal t := ih _
      _ = a * 10 ^ (d :: t).length + strVal (d :: t) := by
          rw [hd, List.length_cons, pow_succ]; ring

lemma strVal_cons (d : ℕ) (t : List ℕ) :
    strVal (d :: t) = d * 10 ^ t.length + strVal t := by
  show t.foldl (fun acc c => acc * 10 + c) (0 * 10 + d) = _
  rw [foldl_strVal_base]; ring_nf

lemma strVal_append (s t : List ℕ) :
    strVal (s ++ t) = strVal s * 10 ^ t.length + strVal t := by
  unfold strVal
  rw [List.foldl_append, foldl_strVal_base]
  rfl

/-- The positional value of a digit string equals Mathlib's little-endian
`Nat.ofDigits` of its reverse. -/
lemma strVal_eq_ofDigits_reverse (s : List ℕ) :
    strVal s = Nat.ofDigits 10 s.reverse := by
  induction s with
  | nil => rfl
  | cons d t ih =>
    rw [strVal_cons, List.reverse_cons, Nat.ofDigits_append, ih]
    simp [Nat.ofDigits_singleton, List.length_reverse]
    ring

lemma strVal_take_le (s : List ℕ) (n : ℕ) : strVal (s.take n) ≤ strVal s := by
  conv_rhs => rw [← List.take_append_drop n s]
  rw [strVal_append]
  calc strVal (s.take n) = strVal (s.take n) * 1 := by ring
    _ ≤ strVal (s.take n) * 10 ^ (s.drop n).length + strVal (s.drop n) := by
        have : (1 : ℕ) ≤ 10 ^ (s.drop n).length := Nat.one_le_pow _ _ (by norm_num)
        nlinarith [Nat.zero_le (strVal (s.drop n))]

/-- The value of the modelled `std::to_string` output. -/
lemma strVal_natDigits (n : ℕ) : strVal (natDigits n) = n := by
  unfold natDigits
  by_cases h : n = 0
  · simp [h, strVal]
  · rw [if_neg h, strVal_eq_ofDigits_reverse, List.reverse_reverse, Nat.ofDigits_digits]

/-- The carry loop computes the exact sum (little-endian reading). -/
lemma addAux_ofDigits :
    ∀ (xs ys : List ℕ) (c : ℕ),
      Nat.ofDigits 10 (addAux xs ys c) =
        Nat.ofDigits 10 xs + Nat.ofDigits 10 ys + c := by
  intro xs
  induction xs with
  | nil =>
    intro ys
    induction ys with
    | nil => intro c; simp [addAux, Nat.ofDigits_digits]
    | cons j js ihj =>
      intro c
      simp only [addAux, Nat.ofDigits_cons, Nat.ofDigits_nil, ihj]
      omega
  | cons i is ihi =>
    intro ys c
    cases ys with
    | nil =>
      simp only [addAux, Nat.ofDigits_cons, Nat.ofDigits_nil, ihi]
      omega
    | cons j js =>
      simp only [addAux, Nat.ofDigits_cons, ihi]
      omega

/-- The carry loop never produces a shorter list than its first argument. -/
lemma addAux_length :
    ∀ (xs ys : List ℕ) (c : ℕ), xs.length ≤ (addAux xs ys c).length := by
  intro xs
  induction xs with
  | nil => intro ys c; simp
  | cons i is ihi =>
    intro ys c
    cases ys with
    | nil =>
      simp only [addAux, List.length_cons]
      exact Nat.succ_le_succ (ihi [] ((i + c) / 10))
    | cons j js =>
      simp only [addAux, List.length_cons]
      exact Nat.succ_le_succ (ihi js ((i + j + c) / 10))

/-- Every digit emitted by the carry loop is a decimal digit. -/
lemma addAux_digits_lt :
    ∀ (xs ys : List ℕ) (c : ℕ) (x : ℕ), x ∈ addAux xs ys c → x < 10 := by
  intro xs
  induction xs with
  | nil =>
    intro ys
    induction ys with
    | nil =>
      intro c x hx
      simp only [addAux] at hx
      exact Nat.digits_lt_base (by norm_num) hx
    | cons j js ihj =>
      intro c x hx
      simp only [addAux] at hx
      rcases List.mem_cons.mp hx with h | h
      · subst h; exact Nat.mod_lt _ (by norm_num)
      · exact ihj _ _ h
  | cons i is ihi =>
    intro ys c x hx
    cases ys with
    | nil =>
      simp only [addAux] at hx
      rcases List.mem_cons.mp hx with h | h
      · subst h; exact Nat.mod_lt _ (by norm_num)
      · exact ihi [] _ _ h
    | cons j js =>
      simp only [addAux] at hx
      rcases List.mem_cons.mp hx with h | h
      · subst h; exact Nat.mod_lt _ (by norm_num)
      · exact ihi js _ _ h

/-- Full correctness of `add_strings`: exact value, no shrinking, digits only. -/
lemma add_strings_spec (s : List ℕ) (k : ℕ) :
    strVal (add_strings s k) = strVal s + k ∧
    s.length ≤ (add_strings s k).length ∧
    ∀ x ∈ add_strings s k, x < 10 := by
  refine ⟨?_, ?_, ?_⟩
  · rw [add_strings, strVal_eq_ofDigits_reverse, List.reverse_reverse, addAux_ofDigits]
    have h1 : Nat.ofDigits 10 s.reverse = strVal s := (strVal_eq_ofDigits_reverse s).symm
    have h2 : Nat.ofDigits 10 (natDigits k).reverse = k := by
      rw [← strVal_eq_ofDigits_reverse, strVal_natDigits]
    omega
  · calc s.length = s.reverse.length := (List.length_reverse s).symm
      _ ≤ (addAux s.reverse (natDigits k).reverse 0).length := addAux_length _ _ _
      _ = (add_strings s k).length := (List.length_reverse _).symm
  · intro x hx
    exact addAux_digits_lt _ _ _ _ (List.mem_reverse.mp hx)

/-- The Horner mod-`m` fold computes the value of the string mod `m`. -/
lemma foldl_mod_eq (m : ℕ) (hm : 0 < m) :
    ∀ (s : List ℕ) (r : ℕ), r < m →
      s.foldl (fun remainder c => (remainder * 10 + c) % m) r =
        (r * 10 ^ s.length + strVal s) % m := by
  intro s
  induction s with
  | nil => intro r hr; simp [strVal, Nat.mod_eq_of_lt hr]
  | cons d t ih =>
    intro r hr
    have step : (d :: t).foldl (fun remainder c => (remainder * 10 + c) % m) r =
        t.foldl (fun remainder c => (remainder * 10 + c) % m) ((r * 10 + d) % m) := rfl
    rw [step, ih _ (Nat.mod_lt _ hm)]
    have hmodeq : ((r * 10 + d) % m) * 10 ^ t.length + strVal t ≡
        (r * 10 + d) * 10 ^ t.length + strVal t [MOD m] :=
      ((Nat.mod_modEq (r * 10 + d) m).mul_right _).add_right _
    calc (((r * 10 + d) % m) * 10 ^ t.length + strVal t) % m
        = ((r * 10 + d) * 10 ^ t.length + strVal t) % m := hmodeq
      _ = (r * 10 ^ (d :: t).length + strVal (d :: t)) % m := by
          rw [strVal_cons, List.length_cons, pow_succ]; ring_nf

lemma calculate_mod_12_eq (s : List ℕ) : calculate_mod_12 s = strVal s % 12 := by
  unfold calculate_mod_12
  rw [foldl_mod_eq 12 (by norm_num) s 0 (by norm_num)]
  simp

lemma calculate_mod_7_eq (s : List ℕ) : calculate_mod_7 s = strVal s % 7 := by
  unfold calculate_mod_7
  rw [foldl_mod_eq 7 (by norm_num) s 0 (by norm_num)]
  simp

lemma calculate_mod_7_lt (s : List ℕ) : calculate_mod_7 s < 7 := by
  rw [calculate_mod_7_eq]; exact Nat.mod_lt _ (by norm_num)

lemma calculate_mod_12_lt (s : List ℕ) : calculate_mod_12 s < 12 := by
  rw [calculate_mod_12_eq]; exact Nat.mod_lt _ (by norm_num)

/-! ### Characterization of the prediction pipeline -/

lemma take_min_ten_ne_nil (s : List ℕ) (h : s ≠ []) :
    s.take (min 10 s.length) ≠ [] := by
  cases s with
  | nil => exact absurd rfl h
  | cons a t =>
    have hmin : min 10 (a :: t).length ≠ 0 := by
      simp only [List.length_cons]; omega
    cases hval : min 10 (a :: t).length with
    | zero => exact absurd hval hmin
    | succ n => rw [List.take_succ_cons]; simp

/-- A successful run: on a non-empty string whose value is within the
`long double` range, the transcribed predictor returns exactly the closed
forms defined above. -/
lemma LGO_Predict_Deterministic_ok (s : List ℕ) (m : PredictionMetrics) (g : Globals)
    (h1 : s ≠ []) (h2 : strVal s ≤ LDBL_MAX_NAT) :
    LGO_Predict_Deterministic s m g =
      .ok ((final_gap_of s, add_strings s (final_gap_of s).toNat),
        metricsOut s, globalsOut s g) := by
  have htake : s.take (min 10 s.length) ≠ [] := take_min_ten_ne_nil s h1
  have hlead : strVal (s.take (min 10 s.length)) ≤ LDBL_MAX_NAT :=
    le_trans (strVal_take_le s _) h2
  unfold LGO_Predict_Deterministic stold
  rw [if_neg htake, if_pos hlead, if_neg h1, if_pos h2]
  rfl

/-- A failing run: a value beyond the `long double` range makes the
full-string `std::stold` at line 273 throw `std::out_of_range`. -/
lemma LGO_Predict_Deterministic_err (s : List ℕ) (m : PredictionMetrics) (g : Globals)
    (h1 : s ≠ []) (h2 : ¬ strVal s ≤ LDBL_MAX_NAT)
    (hlead : strVal (s.take (min 10 s.length)) ≤ LDBL_MAX_NAT) :
    LGO_Predict_Deterministic s m g = .error .out_of_range := by
  have htake : s.take (min 10 s.length) ≠ [] := take_min_ten_ne_nil s h1
  unfold LGO_Predict_Deterministic stold
  rw [if_neg htake, if_pos hlead, if_neg h1, if_neg h2]
  rfl

/-- The final gap is always even: the `+1`-if-odd step makes it even and the
clamp replaces it by 2 (even) if anything smaller slips through. -/
lemma final_gap_of_even (s : List ℕ) : final_gap_of s % 2 = 0 := by
  unfold final_gap_of
  generalize (LGO_CalculateNextPrime_BaseGap_Detailed s).1.1 +
    delta_final_of s + G_density_of s = f0
  dsimp only
  split_ifs <;> omega

/-- The final gap is always at least 2 (the clamp at line 267). -/
lemma final_gap_of_min (s : List ℕ) : 2 ≤ final_gap_of s := by
  unfold final_gap_of
  generalize (LGO_CalculateNextPrime_BaseGap_Detailed s).1.1 +
    delta_final_of s + G_density_of s = f0
  dsimp only
  split_ifs <;> omega

lemma strVal_replicate_zero (n : ℕ) : strVal (List.replicate n 0) = 0 := by
  induction n with
  | zero => rfl
  | succ k ih => rw [List.replicate_succ, strVal_cons, ih]; simp

lemma strVal_overflowInput : strVal overflowInput = 10 ^ 4999 := by
  unfold overflowInput
  rw [strVal_cons, strVal_replicate_zero, List.length_replicate]
  ring

lemma overflow_beyond_ldbl : ¬ strVal overflowInput ≤ LDBL_MAX_NAT := by
  rw [strVal_overflowInput]
  unfold LDBL_MAX_NAT
  -- 2^16384 - 2^16320 < 2^16384 ≤ 10^4999
  have h57 : (2 : ℕ) ^ 16 ≤ 5 ^ 7 := by norm_num
  have h5 : (2 : ℕ) ^ 11424 ≤ 5 ^ 4998 := by
    calc (2 : ℕ) ^ 11424 = (2 ^ 16) ^ 714 := by norm_num [← pow_mul]
      _ ≤ (5 ^ 7) ^ 714 := Nat.pow_le_pow_left h57 _
      _ = 5 ^ 4998 := by norm_num [← pow_mul]
  have h10 : (2 : ℕ) ^ 16384 ≤ 10 ^ 4999 := by
    calc (2 : ℕ) ^ 16384 ≤ 2 ^ 16423 := Nat.pow_le_pow_right (by norm_num) (by norm_num)
      _ = 2 ^ 4999 * 2 ^ 11424 := by rw [← pow_add]
      _ ≤ 2 ^ 4999 * 5 ^ 4998 := Nat.mul_le_mul_left _ h5
      _ ≤ 2 ^ 4999 * 5 ^ 4999 := Nat.mul_le_mul_left _ (Nat.pow_le_pow_right (by norm_num) (by norm_num))
      _ = 10 ^ 4999 := by rw [← Nat.mul_pow]
  have hlt : (2 : ℕ) ^ 16384 - 2 ^ 16320 < 2 ^ 16384 :=
    Nat.sub_lt (Nat.pos_pow_of_pos _ (by norm_num)) (Nat.pos_pow_of_pos _ (by norm_num))
  omega

/-- Values up to `2 ^ 16320` are comfortably inside the `long double` range. -/
lemma le_LDBL_of_le_pow16320 {n : ℕ} (h : n ≤ 2 ^ 16320) : n ≤ LDBL_MAX_NAT := by
  unfold LDBL_MAX_NAT
  have h3 : (2 : ℕ) ^ 16384 = 2 ^ 16320 * 2 ^ 64 := by rw [← pow_add]
  have h4 : 2 * (2 : ℕ) ^ 16320 ≤ 2 ^ 16320 * 2 ^ 64 := by
    rw [mul_comm]
    exact Nat.mul_le_mul_left _ (by norm_num)
  omega

/-- The concrete witness value `"9"` is within the `long double` range. -/
lemma strVal_nine_le : strVal [9] ≤ LDBL_MAX_NAT :=
  le_LDBL_of_le_pow16320
    (le_trans (by decide : strVal [9] ≤ 2 ^ 5)
      (Nat.pow_le_pow_right (by norm_num) (by norm_num)))

/-! ### Claim theorems -/

/-- C1: for every digit string `s` and every non-negative integer `k`,
`add_strings s k` returns a string of decimal digits whose length is at
least that of `s` and whose numeric value is exactly `value(s) + k`, with
no loss of precision for any length of `s`. -/
theorem add_strings_correct (s : List ℕ) (k : ℕ) :
    strVal (add_strings s k) = strVal s + k ∧
    s.length ≤ (add_strings s k).length ∧
    (add_strings s k).all (fun d => decide (d < 10)) = true := by
  obtain ⟨h1, h2, h3⟩ := add_strings_spec s k
  refine ⟨h1, h2, ?_⟩
  rw [List.all_eq_true]
  intro x hx
  simpa using h3 x hx

/-- C3: evaluation of the code at the failing input.  The claim says the
predictor completes normally on every non-empty digit string of any length;
on a 5000-digit input the modelled `std::stold(pn_str)` at line 273 raises
`std::out_of_range`, which escapes `LGO_Predict_Deterministic`. -/
theorem predict_overflow_raises :
    LGO_Predict_Deterministic overflowInput initMetrics initGlobals =
      .error .out_of_range := by
  have h1 : overflowInput ≠ [] := List.cons_ne_nil _ _
  have hlen : overflowInput.length = 5000 := by
    unfold overflowInput
    rw [List.length_cons, List.length_replicate]
  have hlead : strVal (overflowInput.take (min 10 overflowInput.length)) ≤ LDBL_MAX_NAT := by
    have htake : overflowInput.take (min 10 overflowInput.length) =
        1 :: List.replicate 9 0 := by
      rw [hlen]
      unfold overflowInput
      rw [show min 10 5000 = 9 + 1 by norm_num, List.take_succ_cons, List.take_replicate]
      norm_num
    rw [htake, strVal_cons, strVal_replicate_zero, List.length_replicate]
    unfold LDBL_MAX_NAT
    have : (10 : ℕ) ^ 9 ≤ 2 ^ 34 := by norm_num
    have h1 : (2 : ℕ) ^ 34 + 2 ^ 16320 ≤ 2 ^ 16384 := by
      have : (2 : ℕ) ^ 34 ≤ 2 ^ 16383 := Nat.pow_le_pow_right (by norm_num) (by norm_num)
      have : (2 : ℕ) ^ 16320 ≤ 2 ^ 16383 := Nat.pow_le_pow_right (by norm_num) (by norm_num)
      have : (2 : ℕ) ^ 16383 + 2 ^ 16383 = 2 ^ 16384 := by rw [← two_mul, ← pow_succ']
      omega
    omega
  exact LGO_Predict_Deterministic_err _ _ _ h1 overflow_beyond_ldbl hlead

/-- C4: the predictor is a pure function of its input string: the returned
(final gap, next candidate) pair and the populated metrics record are
independent of the incoming metrics record and of any global state left
behind by earlier calls. -/
theorem predict_pure (s : List ℕ) (m m' : PredictionMetrics) (g g' : Globals) :
    predictObservable (LGO_Predict_Deterministic s m g) =
      predictObservable (LGO_Predict_Deterministic s m' g') := by
  by_cases h1 : s = []
  · subst h1; rfl
  · by_cases hlead : strVal (s.take (min 10 s.length)) ≤ LDBL_MAX_NAT
    · by_cases h2 : strVal s ≤ LDBL_MAX_NAT
      · rw [LGO_Predict_Deterministic_ok s m g h1 h2,
          LGO_Predict_Deterministic_ok s m' g' h1 h2]
        rfl
      · rw [LGO_Predict_Deterministic_err s m g h1 h2 hlead,
          LGO_Predict_Deterministic_err s m' g' h1 h2 hlead]
    · have htake : s.take (min 10 s.length) ≠ [] := take_min_ten_ne_nil s h1
      unfold predictObservable LGO_Predict_Deterministic stold
      rw [if_neg htake, if_neg hlead]
      rfl

/-- C5: classification is purely by `value mod 12` (1 ↦ A, 5 ↦ B, 7 ↦ C,
11 ↦ D, otherwise None) except for the literal overrides `"2" ↦ A` and
`"3" ↦ B`; any two non-empty strings with the same mod-12 remainder, neither
equal to `"2"` or `"3"`, are classified identically. -/
theorem determine_prime_set_pure_mod_12 (s t : List ℕ)
    (hs : s ≠ []) (hs2 : s ≠ [2]) (hs3 : s ≠ [3])
    (ht : t ≠ []) (ht2 : t ≠ [2]) (ht3 : t ≠ [3])
    (hmod : strVal s % 12 = strVal t % 12) :
    determine_prime_set [2] = PrimeSet.SET_A ∧
    determine_prime_set [3] = PrimeSet.SET_B ∧
    determine_prime_set s = primeSetOfRemSpec (strVal s % 12) ∧
    determine_prime_set s = determine_prime_set t := by
  have key : ∀ u : List ℕ, u ≠ [] → u ≠ [2] → u ≠ [3] →
      determine_prime_set u = primeSetOfRemSpec (strVal u % 12) := by
    intro u hu hu2 hu3
    unfold determine_prime_set primeSetOfRemSpec
    rw [if_neg hu]
    simp only [calculate_mod_12_eq]
    -- the two literal-override branches are discharged by hu2 and hu3
    split_ifs <;> rfl
  refine ⟨rfl, rfl, key s hs hs2 hs3, ?_⟩
  rw [key s hs hs2 hs3, key t ht ht2 ht3, hmod]

/-- Witness for C5 at the concrete pair `s = "25"`, `t = "13"` (both have
remainder 1 mod 12 and are classified `SET_A`). -/
theorem determine_prime_set_pure_mod_12_witness :
    (([2, 5] : List ℕ) ≠ [] ∧ ([2, 5] : List ℕ) ≠ [2] ∧ ([2, 5] : List ℕ) ≠ [3] ∧
      ([1, 3] : List ℕ) ≠ [] ∧ ([1, 3] : List ℕ) ≠ [2] ∧ ([1, 3] : List ℕ) ≠ [3] ∧
      strVal [2, 5] % 12 = strVal [1, 3] % 12) ∧
    (determine_prime_set [2] = PrimeSet.SET_A ∧
      determine_prime_set [3] = PrimeSet.SET_B ∧
      determine_prime_set [2, 5] = primeSetOfRemSpec (strVal [2, 5] % 12) ∧
      determine_prime_set [2, 5] = determine_prime_set [1, 3]) :=
  ⟨⟨by decide, by decide, by decide, by decide, by decide, by decide, by decide⟩,
    determine_prime_set_pure_mod_12 [2, 5] [1, 3]
      (by decide) (by decide) (by decide) (by decide) (by decide) (by decide) (by decide)⟩

/-- C6: the Horner folds compute the true mathematical remainders:
`calculate_mod_12 s = value(s) mod 12` and `calculate_mod_7 s = value(s) mod 7`
for digit strings of every length. -/
theorem calculate_mod_correct (s : List ℕ) :
    calculate_mod_12 s = strVal s % 12 ∧ calculate_mod_7 s = strVal s % 7 :=
  ⟨calculate_mod_12_eq s, calculate_mod_7_eq s⟩

/-- C7: the base gap heuristic depends only on the digit count `d`:
the returned value is `round(d^2 / 50) + 2 + 1` rounded up to the next even
integer, and it is always even and at least 2 (the `2 / 2` division always
contributes exactly 1). -/
theorem base_gap_heuristic_spec (s : List ℕ) :
    (LGO_CalculateNextPrime_BaseGap_Detailed s).1.1 =
      evenCeil (round ((s.length : ℚ) * (s.length : ℚ) / 50) + 2 + 1) ∧
    (LGO_CalculateNextPrime_BaseGap_Detailed s).1.1 % 2 = 0 ∧
    2 ≤ (LGO_CalculateNextPrime_BaseGap_Detailed s).1.1 := by
  have hcast : (((s.length : ℤ) : ℚ)) = (s.length : ℚ) := by push_cast; ring
  have h22 : (2 / 2 : ℤ) = 1 := by norm_num
  have hr : 0 ≤ round ((s.length : ℚ) * (s.length : ℚ) / 50) := by
    rw [round_eq]
    refine Int.le_floor.mpr ?_
    push_cast
    positivity
  unfold LGO_CalculateNextPrime_BaseGap_Detailed evenCeil
  dsimp only
  rw [hcast, h22]
  generalize hg : round ((s.length : ℚ) * (s.length : ℚ) / 50) = r at hr
  split_ifs <;> omega

/-- C10: the mod-7 remainder is always in `[0, 7)` and the `PrimeSet`
enumerator value is always in `[0, 5)`, so the two correction-table lookups
in `LGO_Predict_Deterministic` stay inside the 7-entry and 5-entry tables. -/
theorem lookup_indices_in_bounds (s : List ℕ) :
    calculate_mod_7 s < MOD_7_CORRECTION_SIZE ∧
    primeSetIdx (determine_prime_set s) < ULAM_CORRECTION_SIZE ∧
    ulam_delta_correction_7.length = MOD_7_CORRECTION_SIZE ∧
    ulam_delta_correction_12.length = ULAM_CORRECTION_SIZE := by
  refine ⟨calculate_mod_7_lt s, ?_, rfl, rfl⟩
  cases determine_prime_set s <;> simp [primeSetIdx, ULAM_CORRECTION_SIZE]

/-- C2: on every in-range non-empty digit string the final gap equals the
base gap heuristic plus `delta_final` plus `G_density`, forced even and
clamped to a minimum of 2; that gap is stored in the metrics record, added
to the input to form the next candidate, and is always even and at least 2. -/
theorem final_gap_even_ge_two (s : List ℕ) (m : PredictionMetrics) (g : Globals)
    (h1 : s ≠ []) (h2 : strVal s ≤ LDBL_MAX_NAT) :
    final_gap_of s =
      clampMin2 (forceEven ((LGO_CalculateNextPrime_BaseGap_Detailed s).1.1 +
        delta_final_of s + G_density_of s)) ∧
    final_gap_of s % 2 = 0 ∧
    2 ≤ final_gap_of s ∧
    (metricsOut s).final_gap = final_gap_of s ∧
    LGO_Predict_Deterministic s m g =
      .ok ((final_gap_of s, add_strings s (final_gap_of s).toNat),
        metricsOut s, globalsOut s g) :=
  ⟨rfl, final_gap_of_even s, final_gap_of_min s, rfl,
    LGO_Predict_Deterministic_ok s m g h1 h2⟩

/-- Witness for C2 at the concrete input `"9"`. -/
theorem final_gap_even_ge_two_witness :
    (([9] : List ℕ) ≠ [] ∧ strVal [9] ≤ LDBL_MAX_NAT) ∧
    (final_gap_of [9] =
        clampMin2 (forceEven ((LGO_CalculateNextPrime_BaseGap_Detailed [9]).1.1 +
          delta_final_of [9] + G_density_of [9])) ∧
      final_gap_of [9] % 2 = 0 ∧
      2 ≤ final_gap_of [9] ∧
      (metricsOut [9]).final_gap = final_gap_of [9] ∧
      LGO_Predict_Deterministic [9] initMetrics initGlobals =
        .ok ((final_gap_of [9], add_strings [9] (final_gap_of [9]).toNat),
          metricsOut [9], globalsOut [9] initGlobals)) :=
  ⟨⟨by decide, strVal_nine_le⟩,
    final_gap_even_ge_two [9] initMetrics initGlobals (by decide) strVal_nine_le⟩

/-- C8: the density correction equals
`round((ln(10) * (d - 1) + ln(leading digits)) * ln(C_LGO_STAR) / C_LGO_STAR)`,
where only the leading `min(10, d)` digits are parsed (the value is a
function of the digit count and those leading digits alone) — in asymmetry
with the PNT-ratio step, which parses the entire string (claim C9). -/
theorem density_correction_leading_digits (s : List ℕ) (m : PredictionMetrics)
    (g : Globals) (h1 : s ≠ []) (h2 : strVal s ≤ LDBL_MAX_NAT) :
    (metricsOut s).density_correction_G =
      round ((Real.log 10 * ((s.length : ℝ) - 1) +
        Real.log ((strVal (s.take (min 10 s.length)) : ℕ) : ℝ)) *
        Real.log C_LGO_STAR / C_LGO_STAR) ∧
    (metricsOut s).density_correction_G =
      G_density_from s.length (s.take (min 10 s.length)) ∧
    LGO_Predict_Deterministic s m g =
      .ok ((final_gap_of s, add_strings s (final_gap_of s).toNat),
        metricsOut s, globalsOut s g) := by
  have hcast : (((s.length : ℤ) : ℝ)) = (s.length : ℝ) := by push_cast; ring
  refine ⟨?_, ?_, LGO_Predict_Deterministic_ok s m g h1 h2⟩
  · show G_density_of s = _
    unfold G_density_of phi_term_of ln_pn_of
    rw [hcast]
  · show G_density_of s = _
    unfold G_density_of phi_term_of ln_pn_of G_density_from
    rw [hcast]

/-- Witness for C8 at the concrete input `"9"`. -/
theorem density_correction_leading_digits_witness :
    (([9] : List ℕ) ≠ [] ∧ strVal [9] ≤ LDBL_MAX_NAT) ∧
    ((metricsOut [9]).density_correction_G =
        round ((Real.log 10 * (([9] : List ℕ).length - 1 : ℝ) +
          Real.log ((strVal (([9] : List ℕ).take (min 10 ([9] : List ℕ).length)) : ℕ) : ℝ)) *
          Real.log C_LGO_STAR / C_LGO_STAR) ∧
      (metricsOut [9]).density_correction_G =
        G_density_from ([9] : List ℕ).length (([9] : List ℕ).take (min 10 ([9] : List ℕ).length)) ∧
      LGO_Predict_Deterministic [9] initMetrics initGlobals =
        .ok ((final_gap_of [9], add_strings [9] (final_gap_of [9]).toNat),
          metricsOut [9], globalsOut [9] initGlobals)) :=
  ⟨⟨by decide, strVal_nine_le⟩,
    density_correction_leading_digits [9] initMetrics initGlobals (by decide) strVal_nine_le⟩

/-- C9: the PNT ratio stored in the metrics equals the final gap divided by
the natural logarithm of the full-string value whenever that logarithm is
strictly positive, and is exactly 0 otherwise; the logarithm is non-positive
precisely for the values 0 and 1, and in that degenerate case no error is
propagated: the call still returns normally. -/
theorem pnt_ratio_degenerate_guard (s : List ℕ) (m : PredictionMetrics)
    (g : Globals) (h1 : s ≠ []) (h2 : strVal s ≤ LDBL_MAX_NAT) :
    (metricsOut s).pnt_ratio =
      (if Real.log ((strVal s : ℕ) : ℝ) > 0
       then (final_gap_of s : ℝ) / Real.log ((strVal s : ℕ) : ℝ) else 0) ∧
    (Real.log ((strVal s : ℕ) : ℝ) ≤ 0 ↔ (strVal s = 0 ∨ strVal s = 1)) ∧
    LGO_Predict_Deterministic s m g =
      .ok ((final_gap_of s, add_strings s (final_gap_of s).toNat),
        metricsOut s, globalsOut s g) := by
  refine ⟨rfl, ?_, LGO_Predict_Deterministic_ok s m g h1 h2⟩
  constructor
  · intro hle
    by_contra hcon
    push_neg at hcon
    have h2le : 2 ≤ strVal s := by omega
    have hgt : (1 : ℝ) < ((strVal s : ℕ) : ℝ) := by
      exact_mod_cast Nat.lt_of_lt_of_le Nat.one_lt_two h2le
    linarith [Real.log_pos hgt]
  · rintro (h | h) <;> rw [h]
    · rw [Nat.cast_zero, Real.log_zero]
    · rw [Nat.cast_one, Real.log_one]

/-- Witness for C9 at the concrete input `"9"`. -/
theorem pnt_ratio_degenerate_guard_witness :
    (([9] : List ℕ) ≠ [] ∧ strVal [9] ≤ LDBL_MAX_NAT) ∧
    ((metricsOut [9]).pnt_ratio =
        (if Real.log ((strVal [9] : ℕ) : ℝ) > 0
         then (final_gap_of [9] : ℝ) / Real.log ((strVal [9] : ℕ) : ℝ) else 0) ∧
      (Real.log ((strVal [9] : ℕ) : ℝ) ≤ 0 ↔ (strVal [9] = 0 ∨ strVal [9] = 1)) ∧
      LGO_Predict_Deterministic [9] initMetrics initGlobals =
        .ok ((final_gap_of [9], add_strings [9] (final_gap_of [9]).toNat),
          metricsOut [9], globalsOut [9] initGlobals)) :=
  ⟨⟨by decide, strVal_nine_le⟩,
    pnt_ratio_degenerate_guard [9] initMetrics initGlobals (by decide) strVal_nine_le⟩

end LGO
